import Mathlib

/-!
Shallow embedding of the sensor-assignment and hybrid-estimation engine of
the schools air-quality system (Django apps `air_quality` and `schools`).

Numeric values (Python floats / Decimals) are modelled as rationals `ℚ`;
nullable fields as `Option ℚ`.  Python truthiness of a numeric value
(`if x:` is false for `None` and for `0`) is modelled by `truthy`.
Python's builtin `round(x, n)` (round-half-to-even) is modelled by
`pyround`.  Timestamps are seconds since the epoch (`ℤ`); `timezone.now()`
is passed in explicitly as `now`.
-/

namespace AQ

/-- Round-half-to-even to the nearest integer, as Python's builtin `round`. -/
def rhe (q : ℚ) : ℤ :=
  let f : ℤ := ⌊q⌋
  let r : ℚ := q - f
  if r < 1/2 then f
  else if 1/2 < r then f + 1
  else if f % 2 = 0 then f else f + 1

/-- Python `round(q, n)`: round to `n` decimal places, half to even. -/
def pyround (q : ℚ) (n : ℕ) : ℚ := (rhe (q * 10 ^ n) : ℚ) / 10 ^ n

/-- Python truthiness of a nullable numeric field: `None` and `0` are falsy. -/
def truthy (o : Option ℚ) : Bool :=
  match o with
  | none => false
  | some v => decide (v ≠ 0)

/-- Hour-of-day (UTC) of an epoch-seconds timestamp, as Python
`datetime.hour` for a UTC datetime. -/
def hourOf (t : ℤ) : ℤ := (t.ediv 3600).emod 24

/-- `Reading` model (air_quality.models.Reading): one timestamped pollutant
measurement set; each pollutant field independently nullable. -/
structure Reading where
  timestamp : ℤ
  no2 : Option ℚ
  pm25 : Option ℚ
  pm10 : Option ℚ
deriving DecidableEq, Repr

/-- `SensorAnnualStats` model: per-year annual means for a sensor. -/
structure SensorAnnualStats where
  year : ℤ
  no2_mean : Option ℚ
  pm25_mean : Option ℚ
  pm10_mean : Option ℚ
deriving DecidableEq, Repr

/-- `Sensor` model: a fixed monitoring point, owning its readings and
annual stats (the Django reverse relations `readings` / `annual_stats`). -/
structure Sensor where
  site_code : String
  latitude : ℚ
  longitude : ℚ
  network : String
  site_type : String
  is_active : Bool
  readings : List Reading
  annual_stats : List SensorAnnualStats
deriving DecidableEq, Repr

/-- `Sensor.is_reference_grade`: LAQN sensors are reference-grade. -/
def is_reference_grade (s : Sensor) : Bool := decide (s.network = "LAQN")

/-- `Sensor.is_urban_background`. -/
def is_urban_background (s : Sensor) : Bool := decide (s.site_type = "urban_background")

/-- `Sensor.get_latest_reading`: `readings.order_by(-timestamp).first()`,
i.e. a reading with maximal timestamp (first such in list order). -/
def get_latest_reading (s : Sensor) : Option Reading :=
  s.readings.foldl
    (fun acc r =>
      match acc with
      | none => some r
      | some b => if r.timestamp > b.timestamp then some r else some b)
    none

/-- `annual_stats.order_by(-year).first()`: stats record with maximal year. -/
def latest_annual_stats (s : Sensor) : Option SensorAnnualStats :=
  s.annual_stats.foldl
    (fun acc st =>
      match acc with
      | none => some st
      | some b => if st.year > b.year then some st else some b)
    none

/-- `School._is_reading_fresh` (both variants, with the max-age argument
made explicit): `(now - reading.timestamp).total_seconds() <= max_age`. -/
def is_reading_fresh (now : ℤ) (r : Reading) (maxAge : ℤ) : Bool :=
  decide (now - r.timestamp ≤ maxAge)

end AQ

namespace Resolver

open AQ

/-- A `(sensor, distance)` entry of the `sensor_distances` list built by
`assign_sensors.Command.handle` for one school. -/
structure SD where
  sensor : Sensor
  distance : ℚ
deriving DecidableEq, Repr

/-- The `sensor_distances` list is sorted ascending by distance
(`sensor_distances.sort(key=lambda x: x[distance])`). -/
def sortedByDistance (l : List SD) : Prop :=
  l.Pairwise (fun a b => a.distance ≤ b.distance)

/-- Direct-assignment scan of `Command.handle`: walk the distance-sorted
list; break as soon as `distance > direct_threshold`; the first sensor with
`site_type == urban_background` becomes the direct sensor, with its
distance rounded to 1 decimal place. -/
def find_direct (T : ℚ) : List SD → Option (Sensor × ℚ)
  | [] => none
  | sd :: rest =>
    if T < sd.distance then none
    else if sd.sensor.site_type = "urban_background" then
      some (sd.sensor, pyround sd.distance 1)
    else find_direct T rest

/-- Eligibility for direct assignment, following the spec's words: within
the direct threshold and classified urban_background. -/
def eligible (T : ℚ) (sd : SD) : Bool :=
  decide (sd.distance ≤ T) && decide (sd.sensor.site_type = "urban_background")

/-- Spec-side selection (for the refinement claim about the scan): the
first eligible sensor of the list, no short-circuit on distance. -/
def find_direct_spec (T : ℚ) (l : List SD) : Option (Sensor × ℚ) :=
  ((l.filter (eligible T)).head?).map (fun sd => (sd.sensor, pyround sd.distance 1))

/-- Reference-assignment of `Command.handle`: filter the distance-sorted
list to LAQN-network sensors; assign the first (nearest) one exactly when
its distance is within the reference threshold. -/
def find_reference (T : ℚ) (l : List SD) : Option (Sensor × ℚ) :=
  match (l.filter (fun sd => decide (sd.sensor.network = "LAQN"))).head? with
  | some sd => if sd.distance ≤ T then some (sd.sensor, pyround sd.distance 1) else none
  | none => none

/-- The per-school assignment record persisted by `Command.handle`. -/
structure Assignment where
  data_source : String
  direct_sensor : Option Sensor
  direct_distance : Option ℚ
  reference_sensor : Option Sensor
  reference_distance : Option ℚ
deriving DecidableEq, Repr

/-- Per-school body of `Command.handle` after the distance sort: direct
scan, reference selection, and data-source classification. -/
def resolve_school (directT referenceT : ℚ) (l : List SD) : Assignment :=
  let d := find_direct directT l
  let r := find_reference referenceT l
  { data_source :=
      if d.isSome then "DIRECT" else if r.isSome then "ADJUSTED" else "LAEI"
    direct_sensor := d.map Prod.fst
    direct_distance := d.map Prod.snd
    reference_sensor := r.map Prod.fst
    reference_distance := r.map Prod.snd }

/-- `Command.add_arguments` plus `handle`: the CLI thresholds are optional
and argparse substitutes `default=150` / `default=2000` when absent. -/
def resolve_school_cli (dOpt rOpt : Option ℚ) (l : List SD) : Assignment :=
  resolve_school (dOpt.getD 150) (rOpt.getD 2000) l

/-- Coordinate guard of `Command.handle`:
`if not school.latitude or not school.longitude: continue` — with the
model's non-nullable float fields, the school is skipped exactly when a
coordinate equals zero. -/
def school_skipped_no_coords (lat lon : ℚ) : Bool :=
  decide (lat = 0) || decide (lon = 0)

end Resolver

namespace AirQuality

open AQ

/-- Freshness default of `air_quality.models.School._is_reading_fresh`
(`max_age_seconds: int = 7200`). -/
def MAX_AGE : ℤ := 7200

/-- `air_quality.models.School`: the fields consumed by the hybrid
estimator.  Assigned sensors are embedded in place of foreign keys. -/
structure School where
  latitude : ℚ
  longitude : ℚ
  laei_no2 : Option ℚ
  laei_pm25 : Option ℚ
  laei_pm10 : Option ℚ
  data_source : String
  direct_sensor : Option Sensor
  direct_sensor_distance : Option ℚ
  reference_sensor : Option Sensor
  reference_sensor_distance : Option ℚ
deriving DecidableEq, Repr

/-- `School._has_laei_data`: `any([laei_no2, laei_pm25, laei_pm10])` with
Python truthiness (a value of 0 is falsy). -/
def has_laei_data (s : School) : Bool :=
  truthy s.laei_no2 || truthy s.laei_pm25 || truthy s.laei_pm10

/-- `School._apply_adjustment`: `None` baseline or factor passes the
baseline through; otherwise the factor is clamped to `[0.2, 5.0]` and the
product rounded to 1 decimal place. -/
def apply_adjustment (baseline factor : Option ℚ) : Option ℚ :=
  match baseline, factor with
  | none, _ => none
  | some b, none => some b
  | some b, some f => some (pyround (b * max (1/5) (min f 5)) 1)

/-- The adjustment-factor mapping returned by
`School._calculate_adjustment_factor`; a key is present exactly when the
corresponding field is `some`.  All-`none` is the empty dict `{}`. -/
structure Factors where
  no2 : Option ℚ
  pm25 : Option ℚ
  pm10 : Option ℚ
deriving DecidableEq, Repr

/-- The empty factor mapping `{}`. -/
def Factors.empty : Factors := ⟨none, none, none⟩

/-- Python truthiness of the factors dict: `if adjustment:` is true exactly
when at least one key is present. -/
def Factors.nonempty (f : Factors) : Bool :=
  f.no2.isSome || f.pm25.isSome || f.pm10.isSome

/-- One pollutant line of `_calculate_adjustment_factor`:
`if reading.p and stats.p_mean and stats.p_mean > 0:
factors[p] = round(reading.p / stats.p_mean, 3)` — guards are Python
truthiness, so a reading value (or mean) of 0 fails the guard. -/
def factor_component (rv mv : Option ℚ) : Option ℚ :=
  match rv, mv with
  | some r, some m =>
    if r ≠ 0 ∧ m ≠ 0 ∧ 0 < m then some (pyround (r / m) 3) else none
  | _, _ => none

/-- `air_quality.models.School._calculate_adjustment_factor`: empty on a
missing reference sensor, missing or stale (`> 7200 s`) latest reading, or
missing annual stats; otherwise per-pollutant ratios to the latest year's
annual means. -/
def calculate_adjustment_factor (now : ℤ) (s : School) : Factors :=
  match s.reference_sensor with
  | none => Factors.empty
  | some rs =>
    match get_latest_reading rs with
    | none => Factors.empty
    | some reading =>
      if ¬ (is_reading_fresh now reading MAX_AGE = true) then Factors.empty
      else
        match latest_annual_stats rs with
        | none => Factors.empty
        | some stats =>
          { no2 := factor_component reading.no2 stats.no2_mean
            pm25 := factor_component reading.pm25 stats.pm25_mean
            pm10 := factor_component reading.pm10 stats.pm10_mean }

/-- The estimate dict returned by `School.get_current_reading` (keys used
by the core logic; presentation-only keys such as `sensor_code` and the
echoed baselines are omitted). -/
structure Estimate where
  source : String
  method : Option String
  confidence : String
  no2 : Option ℚ
  pm25 : Option ℚ
  pm10 : Option ℚ
deriving DecidableEq, Repr

/-- `air_quality.models.School.get_current_reading`: priority chain
direct → laei_adjusted → laei_only → base result. -/
def get_current_reading (now : ℤ) (s : School) : Estimate :=
  let base : Estimate :=
    { source := s.data_source, method := none, confidence := "low"
      no2 := none, pm25 := none, pm10 := none }
  let direct : Option Estimate :=
    match s.direct_sensor with
    | none => none
    | some ds =>
      match get_latest_reading ds with
      | none => none
      | some reading =>
        if is_reading_fresh now reading MAX_AGE then
          some { base with
            no2 := reading.no2, pm25 := reading.pm25, pm10 := reading.pm10
            method := some "direct"
            confidence := if is_reference_grade ds then "high" else "medium-high" }
        else none
  match direct with
  | some e => e
  | none =>
    let adjusted : Option Estimate :=
      if s.reference_sensor.isSome ∧ has_laei_data s = true then
        let adj := calculate_adjustment_factor now s
        if adj.nonempty then
          some { base with
            no2 := apply_adjustment s.laei_no2 adj.no2
            pm25 := apply_adjustment s.laei_pm25 adj.pm25
            pm10 := apply_adjustment s.laei_pm10 adj.pm10
            method := some "laei_adjusted"
            confidence := "medium" }
        else none
      else none
    match adjusted with
    | some e => e
    | none =>
      if has_laei_data s then
        { base with
          no2 := s.laei_no2, pm25 := s.laei_pm25, pm10 := s.laei_pm10
          method := some "laei_only", confidence := "low" }
      else base

/-- `School._get_category`: ordered if/elif chain over the three limits. -/
def get_category (v who eu uk : ℚ) : String :=
  if v ≤ who then "meets_who"
  else if v ≤ eu then "meets_eu_2030"
  else if v ≤ uk then "meets_uk_only"
  else "exceeds_uk"

/-- One pollutant entry of the `get_threshold_status` result. -/
structure PollutantStatus where
  value : ℚ
  meets_uk : Bool
  meets_eu_2030 : Bool
  meets_who : Bool
  category : String
deriving DecidableEq, Repr

/-- Per-pollutant status assembly inside `get_threshold_status`. -/
def mk_status (v uk eu who : ℚ) : PollutantStatus :=
  { value := pyround v 1
    meets_uk := decide (v ≤ uk)
    meets_eu_2030 := decide (v ≤ eu)
    meets_who := decide (v ≤ who)
    category := get_category v who eu uk }

/-- The status dict of `get_threshold_status`: a pollutant key is present
exactly when the estimate carries a value for it. -/
structure ThresholdStatus where
  no2 : Option PollutantStatus
  pm25 : Option PollutantStatus
  pm10 : Option PollutantStatus
deriving DecidableEq, Repr

/-- `air_quality.models.School.get_threshold_status` with its hardcoded
threshold table (`no2 40/20/10`, `pm25 20/10/5`, `pm10 40/20/15`);
pollutants whose estimate value is `None` are skipped (`continue`). -/
def get_threshold_status (now : ℤ) (s : School) : ThresholdStatus :=
  let reading := get_current_reading now s
  { no2 := reading.no2.map (fun v => mk_status v 40 20 10)
    pm25 := reading.pm25.map (fun v => mk_status v 20 10 5)
    pm10 := reading.pm10.map (fun v => mk_status v 40 20 15) }

end AirQuality

namespace Schools

open AQ AirQuality

/-- Freshness default of `schools.models.School._is_reading_fresh`
(`max_age_seconds: int = 86400`). -/
def MAX_AGE_SCH : ℤ := 86400

/-- `schools.models.School`: the fields consumed by this variant of the
estimator (LAEI baselines are the `*_2022` Decimal fields). -/
structure School where
  latitude : ℚ
  longitude : ℚ
  no2_2022 : Option ℚ
  pm25_2022 : Option ℚ
  pm10_mean_2022 : Option ℚ
  data_source : String
  direct_sensor : Option Sensor
  direct_sensor_distance : Option ℚ
  reference_sensor : Option Sensor
  reference_sensor_distance : Option ℚ
deriving DecidableEq, Repr

/-- `schools.models.School._has_laei_data` (Python truthiness). -/
def has_laei_data_sch (s : School) : Bool :=
  truthy s.no2_2022 || truthy s.pm25_2022 || truthy s.pm10_mean_2022

/-- `schools.models.School._apply_adjustment`: on a missing factor the
baseline is returned through `float(baseline) if baseline else None`, so a
zero baseline is nulled; otherwise clamp and round as in the other
variant. -/
def apply_adjustment_sch (baseline factor : Option ℚ) : Option ℚ :=
  match baseline, factor with
  | none, _ => none
  | some b, none => if b ≠ 0 then some b else none
  | some b, some f => some (pyround (b * max (1/5) (min f 5)) 1)

/-- `schools.models.School._calculate_adjustment_factor`: as the
air_quality variant but with a 86400 s freshness window and a daytime
policy — readings with hour < 7 or hour ≥ 19 yield the empty mapping. -/
def calculate_adjustment_factor_sch (now : ℤ) (s : School) : Factors :=
  match s.reference_sensor with
  | none => Factors.empty
  | some rs =>
    match get_latest_reading rs with
    | none => Factors.empty
    | some reading =>
      if ¬ (is_reading_fresh now reading MAX_AGE_SCH = true) then Factors.empty
      else if hourOf reading.timestamp < 7 ∨ 19 ≤ hourOf reading.timestamp then Factors.empty
      else
        match latest_annual_stats rs with
        | none => Factors.empty
        | some stats =>
          { no2 := factor_component reading.no2 stats.no2_mean
            pm25 := factor_component reading.pm25 stats.pm25_mean
            pm10 := factor_component reading.pm10 stats.pm10_mean }

/-- `schools.models.School.get_current_reading`: same priority chain; in
the direct tier each pollutant goes through `float(x) if x else None`, so
zero reading values are nulled. -/
def get_current_reading_sch (now : ℤ) (s : School) : Estimate :=
  let base : Estimate :=
    { source := s.data_source, method := none, confidence := "low"
      no2 := none, pm25 := none, pm10 := none }
  let direct : Option Estimate :=
    match s.direct_sensor with
    | none => none
    | some ds =>
      match get_latest_reading ds with
      | none => none
      | some reading =>
        if is_reading_fresh now reading MAX_AGE_SCH then
          some { base with
            no2 := if truthy reading.no2 then reading.no2 else none
            pm25 := if truthy reading.pm25 then reading.pm25 else none
            pm10 := if truthy reading.pm10 then reading.pm10 else none
            method := some "direct"
            confidence := if is_reference_grade ds then "high" else "medium-high" }
        else none
  match direct with
  | some e => e
  | none =>
    let adjusted : Option Estimate :=
      if s.reference_sensor.isSome ∧ has_laei_data_sch s = true then
        let adj := calculate_adjustment_factor_sch now s
        if adj.nonempty then
          some { base with
            no2 := apply_adjustment_sch s.no2_2022 adj.no2
            pm25 := apply_adjustment_sch s.pm25_2022 adj.pm25
            pm10 := apply_adjustment_sch s.pm10_mean_2022 adj.pm10
            method := some "laei_adjusted"
            confidence := "medium" }
        else none
      else none
    match adjusted with
    | some e => e
    | none =>
      if has_laei_data_sch s then
        { base with
          no2 := if truthy s.no2_2022 then s.no2_2022 else none
          pm25 := if truthy s.pm25_2022 then s.pm25_2022 else none
          pm10 := if truthy s.pm10_mean_2022 then s.pm10_mean_2022 else none
          method := some "laei_only", confidence := "low" }
      else base

end Schools

namespace Resolver

open AQ

/-- Helper: in a distance-sorted list, the head of a filtered sublist is a
member satisfying the predicate whose distance is minimal among all
members satisfying it. -/
theorem head_filter_min {p : SD → Bool} {l : List SD} (h : sortedByDistance l)
    {a : SD} (ha : (l.filter p).head? = some a) :
    a ∈ l ∧ p a = true ∧ ∀ b ∈ l, p b = true → a.distance ≤ b.distance := by
  have hsub : List.Sublist (l.filter p) l := List.filter_sublist l
  have hpair : (l.filter p).Pairwise (fun x y => x.distance ≤ y.distance) :=
    h.sublist hsub
  cases hfl : l.filter p with
  | nil => rw [hfl] at ha; cases ha
  | cons x tl =>
    rw [hfl] at hpair
    rw [hfl, List.head?_cons, Option.some.injEq] at ha
    subst ha
    have hmem : x ∈ l.filter p := by rw [hfl]; exact List.mem_cons_self x tl
    obtain ⟨hxl, hxp⟩ := List.mem_filter.mp hmem
    refine ⟨hxl, hxp, ?_⟩
    intro b hb hbp
    have hbf : b ∈ l.filter p := List.mem_filter.mpr ⟨hb, hbp⟩
    rw [hfl] at hbf
    rcases List.mem_cons.mp hbf with hbx | hbtl
    · rw [hbx]
    · exact (List.pairwise_cons.mp hpair).1 b hbtl

/-- C2: on a distance-sorted active-sensor list the direct scan equals the
spec-side selection (first sensor within `direct_threshold` classified
urban_background, ineligible closer sensors skipped without stopping, the
break on the first sensor beyond the threshold changing nothing), and any
selected sensor is the nearest eligible one. -/
theorem direct_scan_selects_nearest_eligible (T : ℚ) (l : List SD)
    (h : sortedByDistance l) :
    find_direct T l = find_direct_spec T l ∧
    (∀ sel d, find_direct T l = some (sel, d) →
      ∃ sd ∈ l, sd.sensor = sel ∧ d = pyround sd.distance 1 ∧
        sd.distance ≤ T ∧ sd.sensor.site_type = "urban_background" ∧
        ∀ sd2 ∈ l, sd2.distance ≤ T → sd2.sensor.site_type = "urban_background" →
          sd.distance ≤ sd2.distance) := by
  have heq : find_direct T l = find_direct_spec T l := by
    induction l with
    | nil => rfl
    | cons sd rest ih =>
      obtain ⟨h1, h2⟩ := List.pairwise_cons.mp h
      by_cases hT : T < sd.distance
      · have hfil : (sd :: rest).filter (eligible T) = [] := by
          rw [List.filter_eq_nil_iff]
          intro a ha
          rcases List.mem_cons.mp ha with rfl | hrest
          · simp only [eligible, Bool.and_eq_true, decide_eq_true_eq, not_and]
            intro hle
            exact absurd hle (not_le.mpr hT)
          · simp only [eligible, Bool.and_eq_true, decide_eq_true_eq, not_and]
            intro hle
            exact absurd hle (not_le.mpr (lt_of_lt_of_le hT (h1 a hrest)))
        rw [find_direct, find_direct_spec, hfil, if_pos hT]
        rfl
      · push_neg at hT
        by_cases hub : sd.sensor.site_type = "urban_background"
        · have hel : eligible T sd = true := by
            simp [eligible, hT, hub]
          rw [find_direct, find_direct_spec, List.filter_cons_of_pos hel,
            if_neg (not_lt.mpr hT), if_pos hub]
          rfl
        · have hel : eligible T sd = false := by
            simp [eligible, hub]
          rw [find_direct, find_direct_spec, List.filter_cons_of_neg (by simp [hel]),
            if_neg (not_lt.mpr hT), if_neg hub]
          exact ih h2
  refine ⟨heq, ?_⟩
  intro sel d hfd
  rw [heq] at hfd
  obtain ⟨a, hha⟩ : ∃ a, (l.filter (eligible T)).head? = some a ∧
      sel = a.sensor ∧ d = pyround a.distance 1 := by
    unfold find_direct_spec at hfd
    cases hh : (l.filter (eligible T)).head? with
    | none => rw [hh] at hfd; cases hfd
    | some a =>
      rw [hh] at hfd
      refine ⟨a, rfl, ?_, ?_⟩
      · exact (Prod.mk.injEq _ _ _ _ ▸ (Option.some.injEq _ _ ▸ hfd :
          (a.sensor, pyround a.distance 1) = (sel, d))).1.symm
      · exact (Prod.mk.injEq _ _ _ _ ▸ (Option.some.injEq _ _ ▸ hfd :
          (a.sensor, pyround a.distance 1) = (sel, d))).2.symm
  obtain ⟨hhead, hsel, hd⟩ := hha
  obtain ⟨hmem, hp, hmin⟩ := head_filter_min h hhead
  obtain ⟨hdist, hub⟩ : a.distance ≤ T ∧ a.sensor.site_type = "urban_background" := by
    simpa [eligible] using hp
  refine ⟨a, hmem, hsel.symm, hd, hdist, hub, ?_⟩
  intro sd2 hsd2 hle2 hub2
  exact hmin sd2 hsd2 (by simp [eligible, hle2, hub2])

/-- C2 witness: with direct threshold 150 m, an ineligible roadside sensor
at 50 m does not block the eligible urban-background sensor at 140 m, and
the selected sensor is the nearest eligible one. -/
theorem direct_scan_selects_nearest_eligible_witness :
    sortedByDistance
      [⟨⟨"RD1", 51, 0, "LAQN", "roadside", true, [], []⟩, 50⟩,
       ⟨⟨"UB1", 51, 0, "BREATHE", "urban_background", true, [], []⟩, 140⟩] ∧
    find_direct 150
      [⟨⟨"RD1", 51, 0, "LAQN", "roadside", true, [], []⟩, 50⟩,
       ⟨⟨"UB1", 51, 0, "BREATHE", "urban_background", true, [], []⟩, 140⟩] =
      some (⟨"UB1", 51, 0, "BREATHE", "urban_background", true, [], []⟩, 140) ∧
    (∃ sd ∈ [⟨⟨"RD1", 51, 0, "LAQN", "roadside", true, [], []⟩, 50⟩,
       (⟨⟨"UB1", 51, 0, "BREATHE", "urban_background", true, [], []⟩, 140⟩ : SD)],
      sd.sensor = ⟨"UB1", 51, 0, "BREATHE", "urban_background", true, [], []⟩ ∧
      (140 : ℚ) = pyround sd.distance 1 ∧ sd.distance ≤ 150 ∧
      sd.sensor.site_type = "urban_background" ∧
      ∀ sd2 ∈ [⟨⟨"RD1", 51, 0, "LAQN", "roadside", true, [], []⟩, 50⟩,
        (⟨⟨"UB1", 51, 0, "BREATHE", "urban_background", true, [], []⟩, 140⟩ : SD)],
        sd2.distance ≤ 150 → sd2.sensor.site_type = "urban_background" →
          sd.distance ≤ sd2.distance) := by
  have hs : sortedByDistance
      [⟨⟨"RD1", 51, 0, "LAQN", "roadside", true, [], []⟩, 50⟩,
       ⟨⟨"UB1", 51, 0, "BREATHE", "urban_background", true, [], []⟩, 140⟩] := by
    unfold sortedByDistance
    norm_num [List.pairwise_cons]
  have heval : find_direct 150
      [⟨⟨"RD1", 51, 0, "LAQN", "roadside", true, [], []⟩, 50⟩,
       ⟨⟨"UB1", 51, 0, "BREATHE", "urban_background", true, [], []⟩, 140⟩] =
      some (⟨"UB1", 51, 0, "BREATHE", "urban_background", true, [], []⟩, 140) := by
    norm_num [find_direct, pyround, rhe, Int.fract]
    decide
  exact ⟨hs, heval,
    (direct_scan_selects_nearest_eligible 150 _ hs).2 _ _ heval⟩

/-- C6: on a distance-sorted sensor list, reference assignment filters to
LAQN-network sensors regardless of site classification and assigns the
nearest one exactly when it is within the reference threshold; any
assigned reference sensor is an LAQN sensor of the list at minimal
distance among LAQN sensors.  The selection is computed from the list
alone, independently of the direct assignment. -/
theorem reference_assignment_nearest_laqn (T : ℚ) (l : List SD)
    (h : sortedByDistance l) :
    ((find_reference T l).isSome = true ↔
      ∃ sd ∈ l, sd.sensor.network = "LAQN" ∧ sd.distance ≤ T) ∧
    (∀ sel d, find_reference T l = some (sel, d) →
      ∃ sd ∈ l, sd.sensor = sel ∧ d = pyround sd.distance 1 ∧
        sd.sensor.network = "LAQN" ∧ sd.distance ≤ T ∧
        ∀ sd2 ∈ l, sd2.sensor.network = "LAQN" → sd.distance ≤ sd2.distance) := by
  cases hh : (l.filter (fun sd => decide (sd.sensor.network = "LAQN"))).head? with
  | none =>
    have hnone : find_reference T l = none := by
      unfold find_reference
      rw [hh]
    have hfil : l.filter (fun sd => decide (sd.sensor.network = "LAQN")) = [] := by
      cases hc : l.filter (fun sd => decide (sd.sensor.network = "LAQN")) with
      | nil => rfl
      | cons x tl => rw [hc, List.head?_cons] at hh; cases hh
    constructor
    · rw [hnone]
      simp only [Option.isSome_none, Bool.false_eq_true, false_iff]
      rintro ⟨sd, hsd, hnet, -⟩
      have : sd ∈ l.filter (fun sd => decide (sd.sensor.network = "LAQN")) :=
        List.mem_filter.mpr ⟨hsd, by simp [hnet]⟩
      rw [hfil] at this
      cases this
    · intro sel d hsel
      rw [hnone] at hsel
      cases hsel
  | some a =>
    obtain ⟨hmem, hp, hmin⟩ := head_filter_min h hh
    have hnet : a.sensor.network = "LAQN" := by simpa using hp
    have hmin' : ∀ sd2 ∈ l, sd2.sensor.network = "LAQN" → a.distance ≤ sd2.distance := by
      intro sd2 hsd2 hnet2
      exact hmin sd2 hsd2 (by simp [hnet2])
    have href : find_reference T l =
        if a.distance ≤ T then some (a.sensor, pyround a.distance 1) else none := by
      unfold find_reference
      rw [hh]
    by_cases hT : a.distance ≤ T
    · rw [href, if_pos hT]
      constructor
      · simp only [Option.isSome_some, true_iff]
        exact ⟨a, hmem, hnet, hT⟩
      · intro sel d hsel
        rw [Option.some.injEq, Prod.mk.injEq] at hsel
        exact ⟨a, hmem, hsel.1, hsel.2.symm, hnet, hT, hmin'⟩
    · rw [href, if_neg hT]
      constructor
      · simp only [Option.isSome_none, Bool.false_eq_true, false_iff]
        rintro ⟨sd, hsd, hnet2, hle⟩
        exact hT (le_trans (hmin' sd hsd hnet2) hle)
      · intro sel d hsel
        cases hsel

/-- C6 witness: the concrete spec scenario — a roadside LAQN sensor at
40 m becomes the reference sensor even while the urban-background sensor
at 120 m is the direct sensor. -/
theorem reference_assignment_nearest_laqn_witness :
    find_reference 2000
      [⟨⟨"B", 51, 0, "LAQN", "roadside", true, [], []⟩, 40⟩,
       ⟨⟨"A", 51, 0, "LAQN", "urban_background", true, [], []⟩, 120⟩] =
      some (⟨"B", 51, 0, "LAQN", "roadside", true, [], []⟩, 40) ∧
    find_direct 150
      [⟨⟨"B", 51, 0, "LAQN", "roadside", true, [], []⟩, 40⟩,
       ⟨⟨"A", 51, 0, "LAQN", "urban_background", true, [], []⟩, 120⟩] =
      some (⟨"A", 51, 0, "LAQN", "urban_background", true, [], []⟩, 120) ∧
    (∃ sd ∈ [⟨⟨"B", 51, 0, "LAQN", "roadside", true, [], []⟩, 40⟩,
       (⟨⟨"A", 51, 0, "LAQN", "urban_background", true, [], []⟩, 120⟩ : SD)],
      sd.sensor = ⟨"B", 51, 0, "LAQN", "roadside", true, [], []⟩ ∧
      (40 : ℚ) = pyround sd.distance 1 ∧ sd.sensor.network = "LAQN" ∧
      sd.distance ≤ 2000 ∧
      ∀ sd2 ∈ [⟨⟨"B", 51, 0, "LAQN", "roadside", true, [], []⟩, 40⟩,
        (⟨⟨"A", 51, 0, "LAQN", "urban_background", true, [], []⟩, 120⟩ : SD)],
        sd2.sensor.network = "LAQN" → sd.distance ≤ sd2.distance) := by
  have hs : sortedByDistance
      [⟨⟨"B", 51, 0, "LAQN", "roadside", true, [], []⟩, 40⟩,
       ⟨⟨"A", 51, 0, "LAQN", "urban_background", true, [], []⟩, 120⟩] := by
    unfold sortedByDistance
    norm_num [List.pairwise_cons]
  have href : find_reference 2000
      [⟨⟨"B", 51, 0, "LAQN", "roadside", true, [], []⟩, 40⟩,
       ⟨⟨"A", 51, 0, "LAQN", "urban_background", true, [], []⟩, 120⟩] =
      some (⟨"B", 51, 0, "LAQN", "roadside", true, [], []⟩, 40) := by
    norm_num [find_reference, List.filter, pyround, rhe, Int.fract]
  have hdir : find_direct 150
      [⟨⟨"B", 51, 0, "LAQN", "roadside", true, [], []⟩, 40⟩,
       ⟨⟨"A", 51, 0, "LAQN", "urban_background", true, [], []⟩, 120⟩] =
      some (⟨"A", 51, 0, "LAQN", "urban_background", true, [], []⟩, 120) := by
    norm_num [find_direct, pyround, rhe, Int.fract]
    decide
  exact ⟨href, hdir,
    (reference_assignment_nearest_laqn 2000 _ hs).2 _ _ href⟩

end Resolver

open AQ in
/-- C1: in both estimator variants, if a school has a direct sensor whose
latest reading exists and is fresh, the estimator returns method
"direct" — even when a valid reference-sensor-plus-baseline combination
(reference sensor assigned, baseline data present, nonempty adjustment
factors) is simultaneously available, the adjusted tier is never chosen:
the tiers are a strict priority chain. -/
theorem direct_tier_beats_adjusted_tier :
    (∀ (now : ℤ) (s : AirQuality.School) (ds : Sensor) (r : Reading),
      s.direct_sensor = some ds → get_latest_reading ds = some r →
      is_reading_fresh now r AirQuality.MAX_AGE = true →
      s.reference_sensor.isSome = true →
      AirQuality.has_laei_data s = true →
      (AirQuality.calculate_adjustment_factor now s).nonempty = true →
      (AirQuality.get_current_reading now s).method = some "direct" ∧
      (AirQuality.get_current_reading now s).method ≠ some "laei_adjusted") ∧
    (∀ (now : ℤ) (s : Schools.School) (ds : Sensor) (r : Reading),
      s.direct_sensor = some ds → get_latest_reading ds = some r →
      is_reading_fresh now r Schools.MAX_AGE_SCH = true →
      s.reference_sensor.isSome = true →
      Schools.has_laei_data_sch s = true →
      (Schools.calculate_adjustment_factor_sch now s).nonempty = true →
      (Schools.get_current_reading_sch now s).method = some "direct" ∧
      (Schools.get_current_reading_sch now s).method ≠ some "laei_adjusted") := by
  constructor
  · intro now s ds r hds hr hf href hlaei hadj
    have hm : (AirQuality.get_current_reading now s).method = some "direct" := by
      simp [AirQuality.get_current_reading, hds, hr, hf]
    exact ⟨hm, by rw [hm]; simp⟩
  · intro now s ds r hds hr hf href hlaei hadj
    have hm : (Schools.get_current_reading_sch now s).method = some "direct" := by
      simp [Schools.get_current_reading_sch, hds, hr, hf]
    exact ⟨hm, by rw [hm]; simp⟩

open AQ in
/-- C1 witness: concrete schools of each variant carrying both a fresh
direct reading and a valid reference-plus-baseline combination (nonempty
factors) get method "direct". -/
theorem direct_tier_beats_adjusted_tier_witness :
    (AirQuality.get_current_reading 50000
      { latitude := 51, longitude := 0
        laei_no2 := some 50, laei_pm25 := none, laei_pm10 := none
        data_source := "DIRECT"
        direct_sensor := some
          ⟨"DS1", 51, 0, "BREATHE", "urban_background", true,
            [⟨43200, some 30, some 10, some 20⟩], []⟩
        direct_sensor_distance := some 100
        reference_sensor := some
          ⟨"RS1", 51, 0, "LAQN", "roadside", true,
            [⟨43200, some 40, none, none⟩], [⟨2023, some 32, none, none⟩]⟩
        reference_sensor_distance := some 500 }).method = some "direct" ∧
    (Schools.get_current_reading_sch 50000
      { latitude := 51, longitude := 0
        no2_2022 := some 45, pm25_2022 := some 18, pm10_mean_2022 := none
        data_source := "DIRECT"
        direct_sensor := some
          ⟨"DS1", 51, 0, "BREATHE", "urban_background", true,
            [⟨43200, some 30, some 10, some 20⟩], []⟩
        direct_sensor_distance := some 100
        reference_sensor := some
          ⟨"RS5", 51, 0, "LAQN", "roadside", true,
            [⟨43200, none, some 20, none⟩], [⟨2023, none, some 16, none⟩]⟩
        reference_sensor_distance := some 500 }).method = some "direct" := by
  constructor
  · have h := direct_tier_beats_adjusted_tier.1 50000
      { latitude := 51, longitude := 0
        laei_no2 := some 50, laei_pm25 := none, laei_pm10 := none
        data_source := "DIRECT"
        direct_sensor := some
          ⟨"DS1", 51, 0, "BREATHE", "urban_background", true,
            [⟨43200, some 30, some 10, some 20⟩], []⟩
        direct_sensor_distance := some 100
        reference_sensor := some
          ⟨"RS1", 51, 0, "LAQN", "roadside", true,
            [⟨43200, some 40, none, none⟩], [⟨2023, some 32, none, none⟩]⟩
        reference_sensor_distance := some 500 }
      ⟨"DS1", 51, 0, "BREATHE", "urban_background", true,
        [⟨43200, some 30, some 10, some 20⟩], []⟩
      ⟨43200, some 30, some 10, some 20⟩
      rfl rfl (by decide) rfl
      (by norm_num [AirQuality.has_laei_data, truthy])
      (by norm_num [AirQuality.calculate_adjustment_factor, AirQuality.Factors.nonempty,
        get_latest_reading, latest_annual_stats, is_reading_fresh, AirQuality.MAX_AGE,
        AirQuality.factor_component])
    exact h.1
  · have hhour : hourOf 43200 = 12 := by decide
    have h := direct_tier_beats_adjusted_tier.2 50000
      { latitude := 51, longitude := 0
        no2_2022 := some 45, pm25_2022 := some 18, pm10_mean_2022 := none
        data_source := "DIRECT"
        direct_sensor := some
          ⟨"DS1", 51, 0, "BREATHE", "urban_background", true,
            [⟨43200, some 30, some 10, some 20⟩], []⟩
        direct_sensor_distance := some 100
        reference_sensor := some
          ⟨"RS5", 51, 0, "LAQN", "roadside", true,
            [⟨43200, none, some 20, none⟩], [⟨2023, none, some 16, none⟩]⟩
        reference_sensor_distance := some 500 }
      ⟨"DS1", 51, 0, "BREATHE", "urban_background", true,
        [⟨43200, some 30, some 10, some 20⟩], []⟩
      ⟨43200, some 30, some 10, some 20⟩
      rfl rfl (by decide) rfl
      (by norm_num [Schools.has_laei_data_sch, truthy])
      (by norm_num [Schools.calculate_adjustment_factor_sch, AirQuality.Factors.nonempty,
        get_latest_reading, latest_annual_stats, is_reading_fresh, Schools.MAX_AGE_SCH,
        AirQuality.factor_component, hhour])
    exact h.1

open AQ in
/-- C10: once a school has a direct sensor with an existing fresh latest
reading, both estimator variants commit to the direct tier without
checking that the reading carries any pollutant value: with every
pollutant field null the output still has method "direct", confidence
"high" or "medium-high", and all pollutant values null, instead of
falling through to the adjusted or baseline-only tiers. -/
theorem direct_method_with_all_null_pollutants :
    (∀ (now : ℤ) (s : AirQuality.School) (ds : Sensor) (r : Reading),
      s.direct_sensor = some ds → get_latest_reading ds = some r →
      is_reading_fresh now r AirQuality.MAX_AGE = true →
      r.no2 = none → r.pm25 = none → r.pm10 = none →
      (AirQuality.get_current_reading now s).method = some "direct" ∧
      (AirQuality.get_current_reading now s).no2 = none ∧
      (AirQuality.get_current_reading now s).pm25 = none ∧
      (AirQuality.get_current_reading now s).pm10 = none ∧
      ((AirQuality.get_current_reading now s).confidence = "high" ∨
        (AirQuality.get_current_reading now s).confidence = "medium-high")) ∧
    (∀ (now : ℤ) (s : Schools.School) (ds : Sensor) (r : Reading),
      s.direct_sensor = some ds → get_latest_reading ds = some r →
      is_reading_fresh now r Schools.MAX_AGE_SCH = true →
      r.no2 = none → r.pm25 = none → r.pm10 = none →
      (Schools.get_current_reading_sch now s).method = some "direct" ∧
      (Schools.get_current_reading_sch now s).no2 = none ∧
      (Schools.get_current_reading_sch now s).pm25 = none ∧
      (Schools.get_current_reading_sch now s).pm10 = none ∧
      ((Schools.get_current_reading_sch now s).confidence = "high" ∨
        (Schools.get_current_reading_sch now s).confidence = "medium-high")) := by
  constructor
  · intro now s ds r hds hr hf h2 h25 h10
    cases hrg : is_reference_grade ds with
    | false =>
      simp [AirQuality.get_current_reading, hds, hr, hf, h2, h25, h10, hrg]
    | true =>
      simp [AirQuality.get_current_reading, hds, hr, hf, h2, h25, h10, hrg]
  · intro now s ds r hds hr hf h2 h25 h10
    cases hrg : is_reference_grade ds with
    | false =>
      simp [Schools.get_current_reading_sch, hds, hr, hf, h2, h25, h10, hrg, truthy]
    | true =>
      simp [Schools.get_current_reading_sch, hds, hr, hf, h2, h25, h10, hrg, truthy]

open AQ in
/-- C10 witness: a concrete school whose direct sensor's fresh latest
reading reports no pollutant at all still gets method "direct" with all
pollutant values null. -/
theorem direct_method_with_all_null_pollutants_witness :
    (AirQuality.get_current_reading 50000
      { latitude := 51, longitude := 0
        laei_no2 := some 50, laei_pm25 := none, laei_pm10 := none
        data_source := "DIRECT"
        direct_sensor := some
          ⟨"DS2", 51, 0, "BREATHE", "urban_background", true,
            [⟨43200, none, none, none⟩], []⟩
        direct_sensor_distance := some 100
        reference_sensor := none
        reference_sensor_distance := none }).method = some "direct" ∧
    (AirQuality.get_current_reading 50000
      { latitude := 51, longitude := 0
        laei_no2 := some 50, laei_pm25 := none, laei_pm10 := none
        data_source := "DIRECT"
        direct_sensor := some
          ⟨"DS2", 51, 0, "BREATHE", "urban_background", true,
            [⟨43200, none, none, none⟩], []⟩
        direct_sensor_distance := some 100
        reference_sensor := none
        reference_sensor_distance := none }).no2 = none := by
  have h := direct_method_with_all_null_pollutants.1 50000
    { latitude := 51, longitude := 0
      laei_no2 := some 50, laei_pm25 := none, laei_pm10 := none
      data_source := "DIRECT"
      direct_sensor := some
        ⟨"DS2", 51, 0, "BREATHE", "urban_background", true,
          [⟨43200, none, none, none⟩], []⟩
      direct_sensor_distance := some 100
      reference_sensor := none
      reference_sensor_distance := none }
    ⟨"DS2", 51, 0, "BREATHE", "urban_background", true,
      [⟨43200, none, none, none⟩], []⟩
    ⟨43200, none, none, none⟩
    rfl rfl (by decide) rfl rfl rfl
  exact ⟨h.1, h.2.1⟩

/-- C7: for any ordered limit triple (health guideline ≤ middle limit ≤
loosest limit) the classifier's category is exactly one of the four
ordered categories, characterised by mutually exclusive ranges in which a
value exactly equal to a limit counts as meeting it (comparisons are ≤);
and a pollutant whose estimate value is null is omitted from the status. -/
theorem threshold_categories_partition :
    (∀ v who eu uk : ℚ, who ≤ eu → eu ≤ uk →
      (AirQuality.get_category v who eu uk = "meets_who" ↔ v ≤ who) ∧
      (AirQuality.get_category v who eu uk = "meets_eu_2030" ↔ who < v ∧ v ≤ eu) ∧
      (AirQuality.get_category v who eu uk = "meets_uk_only" ↔ eu < v ∧ v ≤ uk) ∧
      (AirQuality.get_category v who eu uk = "exceeds_uk" ↔ uk < v)) ∧
    (∀ (now : ℤ) (s : AirQuality.School),
      ((AirQuality.get_threshold_status now s).no2 = none ↔
        (AirQuality.get_current_reading now s).no2 = none) ∧
      ((AirQuality.get_threshold_status now s).pm25 = none ↔
        (AirQuality.get_current_reading now s).pm25 = none) ∧
      ((AirQuality.get_threshold_status now s).pm10 = none ↔
        (AirQuality.get_current_reading now s).pm10 = none)) := by
  constructor
  · intro v who eu uk h1 h2
    unfold AirQuality.get_category
    by_cases hw : v ≤ who
    · have ha : ¬ who < v := not_lt.mpr hw
      have hb : v ≤ eu := le_trans hw h1
      have hc : ¬ eu < v := not_lt.mpr hb
      have hd : ¬ uk < v := not_lt.mpr (le_trans hb h2)
      rw [if_pos hw]
      refine ⟨by simpa using hw, ?_, ?_, ?_⟩
      · constructor
        · intro h
          exact absurd h (by decide)
        · rintro ⟨h, -⟩
          exact absurd h ha
      · constructor
        · intro h
          exact absurd h (by decide)
        · rintro ⟨h, -⟩
          exact absurd h hc
      · constructor
        · intro h
          exact absurd h (by decide)
        · intro h
          exact absurd h hd
    · rw [if_neg hw]
      by_cases he : v ≤ eu
      · have ha : who < v := not_le.mp hw
        have hc : ¬ eu < v := not_lt.mpr he
        have hd : ¬ uk < v := not_lt.mpr (le_trans he h2)
        rw [if_pos he]
        refine ⟨?_, by simp [ha, he], ?_, ?_⟩
        · constructor
          · intro h
            exact absurd h (by decide)
          · intro h
            exact absurd h hw
        · constructor
          · intro h
            exact absurd h (by decide)
          · rintro ⟨h, -⟩
            exact absurd h hc
        · constructor
          · intro h
            exact absurd h (by decide)
          · intro h
            exact absurd h hd
      · rw [if_neg he]
        by_cases hu : v ≤ uk
        · have hb : eu < v := not_le.mp he
          have hd : ¬ uk < v := not_lt.mpr hu
          rw [if_pos hu]
          refine ⟨?_, ?_, by simp [hb, hu], ?_⟩
          · constructor
            · intro h
              exact absurd h (by decide)
            · intro h
              exact absurd h hw
          · constructor
            · intro h
              exact absurd h (by decide)
            · rintro ⟨-, h⟩
              exact absurd h he
          · constructor
            · intro h
              exact absurd h (by decide)
            · intro h
              exact absurd h hd
        · have hd : uk < v := not_le.mp hu
          rw [if_neg hu]
          refine ⟨?_, ?_, ?_, by simpa using hd⟩
          · constructor
            · intro h
              exact absurd h (by decide)
            · intro h
              exact absurd h hw
          · constructor
            · intro h
              exact absurd h (by decide)
            · rintro ⟨-, h⟩
              exact absurd h he
          · constructor
            · intro h
              exact absurd h (by decide)
            · rintro ⟨-, h⟩
              exact absurd h hu
  · intro now s
    unfold AirQuality.get_threshold_status
    refine ⟨?_, ?_, ?_⟩ <;> simp [Option.map_eq_none']

/-- C7 witness: at the concrete NO2 table (WHO 10, EU-2030 20, UK 40), a
value of exactly 10 meets the strictest guideline and a value of exactly
20 is classified "meets_eu_2030" — equality with a limit counts as
meeting that limit. -/
theorem threshold_categories_partition_witness :
    AirQuality.get_category 10 10 20 40 = "meets_who" ∧
    AirQuality.get_category 20 10 20 40 = "meets_eu_2030" := by
  constructor
  · exact (threshold_categories_partition.1 10 10 20 40 (by norm_num)
      (by norm_num)).1.mpr (by norm_num)
  · exact ((threshold_categories_partition.1 20 10 20 40 (by norm_num)
      (by norm_num)).2.1).mpr ⟨by norm_num, by norm_num⟩

open AQ in
/-- C8: the adjustment-factor calculator (a total function in this
embedding, so it raises nothing) returns the empty mapping whenever the
school has no reference sensor, the reference sensor has no reading, the
latest reading is older than the freshness window (7200 s in the
air_quality variant, 86400 s in the schools variant), the sensor has no
annual-stats record, or — in the schools variant with its daytime
policy — the reading's hour is before 07:00 or at or after 19:00. -/
theorem adjustment_factor_empty_on_failures :
    (∀ (now : ℤ) (s : AirQuality.School),
      (s.reference_sensor = none ∨
       (∃ rs, s.reference_sensor = some rs ∧ get_latest_reading rs = none) ∨
       (∃ rs r, s.reference_sensor = some rs ∧ get_latest_reading rs = some r ∧
         7200 < now - r.timestamp) ∨
       (∃ rs, s.reference_sensor = some rs ∧ latest_annual_stats rs = none)) →
      AirQuality.calculate_adjustment_factor now s = AirQuality.Factors.empty) ∧
    (∀ (now : ℤ) (s : Schools.School),
      (s.reference_sensor = none ∨
       (∃ rs, s.reference_sensor = some rs ∧ get_latest_reading rs = none) ∨
       (∃ rs r, s.reference_sensor = some rs ∧ get_latest_reading rs = some r ∧
         86400 < now - r.timestamp) ∨
       (∃ rs r, s.reference_sensor = some rs ∧ get_latest_reading rs = some r ∧
         (hourOf r.timestamp < 7 ∨ 19 ≤ hourOf r.timestamp)) ∨
       (∃ rs, s.reference_sensor = some rs ∧ latest_annual_stats rs = none)) →
      Schools.calculate_adjustment_factor_sch now s = AirQuality.Factors.empty) := by
  constructor
  · intro now s h
    rcases h with h | ⟨rs, hrs, hlr⟩ | ⟨rs, r, hrs, hlr, hst⟩ | ⟨rs, hrs, hstats⟩
    · simp [AirQuality.calculate_adjustment_factor, h]
    · simp [AirQuality.calculate_adjustment_factor, hrs, hlr]
    · have hns : ¬ (now - r.timestamp ≤ 7200) := by omega
      simp [AirQuality.calculate_adjustment_factor, hrs, hlr, is_reading_fresh,
        AirQuality.MAX_AGE, hns]
    · cases hlr : get_latest_reading rs with
      | none => simp [AirQuality.calculate_adjustment_factor, hrs, hlr]
      | some r =>
        by_cases hf : is_reading_fresh now r AirQuality.MAX_AGE = true
        · simp [AirQuality.calculate_adjustment_factor, hrs, hlr, hf, hstats]
        · simp [AirQuality.calculate_adjustment_factor, hrs, hlr, hf]
  · intro now s h
    rcases h with h | ⟨rs, hrs, hlr⟩ | ⟨rs, r, hrs, hlr, hst⟩ |
      ⟨rs, r, hrs, hlr, hhour⟩ | ⟨rs, hrs, hstats⟩
    · simp [Schools.calculate_adjustment_factor_sch, h]
    · simp [Schools.calculate_adjustment_factor_sch, hrs, hlr]
    · have hns : ¬ (now - r.timestamp ≤ 86400) := by omega
      simp [Schools.calculate_adjustment_factor_sch, hrs, hlr, is_reading_fresh,
        Schools.MAX_AGE_SCH, hns]
    · by_cases hf : is_reading_fresh now r Schools.MAX_AGE_SCH = true
      · simp [Schools.calculate_adjustment_factor_sch, hrs, hlr, hf, hhour]
      · simp [Schools.calculate_adjustment_factor_sch, hrs, hlr, hf]
    · cases hlr : get_latest_reading rs with
      | none => simp [Schools.calculate_adjustment_factor_sch, hrs, hlr]
      | some r =>
        by_cases hf : is_reading_fresh now r Schools.MAX_AGE_SCH = true
        · by_cases hh : hourOf r.timestamp < 7 ∨ 19 ≤ hourOf r.timestamp
          · simp [Schools.calculate_adjustment_factor_sch, hrs, hlr, hf, hh]
          · simp [Schools.calculate_adjustment_factor_sch, hrs, hlr, hf, hh, hstats]
        · simp [Schools.calculate_adjustment_factor_sch, hrs, hlr, hf]

open AQ in
/-- C8 witness: a reading 10000 s old exceeds the air_quality variant's
7200 s window and yields the empty mapping; the same concrete school
evaluates to the empty mapping. -/
theorem adjustment_factor_empty_on_failures_witness :
    AirQuality.calculate_adjustment_factor 10000
      { latitude := 51, longitude := 0
        laei_no2 := some 50, laei_pm25 := none, laei_pm10 := none
        data_source := "ADJUSTED"
        direct_sensor := none, direct_sensor_distance := none
        reference_sensor := some
          ⟨"RS2", 51, 0, "LAQN", "roadside", true,
            [⟨0, some 40, none, none⟩], [⟨2023, some 32, none, none⟩]⟩
        reference_sensor_distance := some 500 }
      = AirQuality.Factors.empty := by
  apply adjustment_factor_empty_on_failures.1 10000
  refine Or.inr (Or.inr (Or.inl ?_))
  refine ⟨⟨"RS2", 51, 0, "LAQN", "roadside", true,
    [⟨0, some 40, none, none⟩], [⟨2023, some 32, none, none⟩]⟩,
    ⟨0, some 40, none, none⟩, rfl, rfl, by norm_num⟩

open AQ in
/-- C3 counterexample: a reference sensor whose fresh latest reading has
NO2 present with value 0 and whose annual NO2 mean is 32 (strictly
positive).  The claim demands factor round(0/32, 3) = 0 in the mapping;
the code's truthiness guard (`if reading.no2`) omits the pollutant. -/
theorem zero_reading_factor_omitted_cex :
    get_latest_reading
        ⟨"RS3", 51, 0, "LAQN", "roadside", true,
          [⟨43200, some 0, none, none⟩], [⟨2023, some 32, none, none⟩]⟩ =
      some ⟨43200, some 0, none, none⟩ ∧
    is_reading_fresh 50000 ⟨43200, some 0, none, none⟩ AirQuality.MAX_AGE = true ∧
    latest_annual_stats
        ⟨"RS3", 51, 0, "LAQN", "roadside", true,
          [⟨43200, some 0, none, none⟩], [⟨2023, some 32, none, none⟩]⟩ =
      some ⟨2023, some 32, none, none⟩ ∧
    (0 : ℚ) < 32 ∧
    (AirQuality.calculate_adjustment_factor 50000
      { latitude := 51, longitude := 0
        laei_no2 := some 50, laei_pm25 := none, laei_pm10 := none
        data_source := "ADJUSTED"
        direct_sensor := none, direct_sensor_distance := none
        reference_sensor := some
          ⟨"RS3", 51, 0, "LAQN", "roadside", true,
            [⟨43200, some 0, none, none⟩], [⟨2023, some 32, none, none⟩]⟩
        reference_sensor_distance := some 500 }).no2 ≠
      some (pyround ((0 : ℚ) / 32) 3) ∧
    (AirQuality.calculate_adjustment_factor 50000
      { latitude := 51, longitude := 0
        laei_no2 := some 50, laei_pm25 := none, laei_pm10 := none
        data_source := "ADJUSTED"
        direct_sensor := none, direct_sensor_distance := none
        reference_sensor := some
          ⟨"RS3", 51, 0, "LAQN", "roadside", true,
            [⟨43200, some 0, none, none⟩], [⟨2023, some 32, none, none⟩]⟩
        reference_sensor_distance := some 500 }).no2 = none := by
  refine ⟨rfl, by decide, rfl, by norm_num, ?_, ?_⟩ <;>
    simp [AirQuality.calculate_adjustment_factor, AirQuality.factor_component,
      get_latest_reading, latest_annual_stats, is_reading_fresh, AirQuality.MAX_AGE]

open AQ in
/-- C3 amended: under a fresh reading and existing annual stats the
calculator maps each pollutant through `factor_component`, which produces
`round(reading/mean, 3)` exactly when the reading value is present AND
NONZERO and the mean is present and strictly positive; a pollutant whose
reading value is missing or zero, or whose mean is missing or not
positive, is omitted (not zero, not an error). -/
theorem adjustment_factor_formula :
    (∀ (now : ℤ) (s : AirQuality.School) rs r st,
      s.reference_sensor = some rs → get_latest_reading rs = some r →
      is_reading_fresh now r AirQuality.MAX_AGE = true →
      latest_annual_stats rs = some st →
      AirQuality.calculate_adjustment_factor now s =
        ⟨AirQuality.factor_component r.no2 st.no2_mean,
         AirQuality.factor_component r.pm25 st.pm25_mean,
         AirQuality.factor_component r.pm10 st.pm10_mean⟩) ∧
    (∀ rv mv : ℚ, rv ≠ 0 → 0 < mv →
      AirQuality.factor_component (some rv) (some mv) = some (pyround (rv / mv) 3)) ∧
    (∀ mv, AirQuality.factor_component none mv = none) ∧
    (∀ rv, AirQuality.factor_component rv none = none) ∧
    (∀ mv, AirQuality.factor_component (some 0) mv = none) ∧
    (∀ rv mv : ℚ, ¬ 0 < mv →
      AirQuality.factor_component (some rv) (some mv) = none) := by
  refine ⟨?_, ?_, ?_, ?_, ?_, ?_⟩
  · intro now s rs r st hrs hr hf hst
    simp [AirQuality.calculate_adjustment_factor, hrs, hr, hf, hst]
  · intro rv mv hrv hmv
    simp [AirQuality.factor_component, hrv, hmv, ne_of_gt hmv]
  · intro mv
    cases mv <;> rfl
  · intro rv
    cases rv <;> rfl
  · intro mv
    cases mv <;> simp [AirQuality.factor_component]
  · intro rv mv hmv
    simp [AirQuality.factor_component, hmv]

open AQ in
/-- C3 witness: the spec's concrete scenario — reading NO2 = 40 with
annual mean 32 yields factor 1.25; pollutants missing on either side are
omitted. -/
theorem adjustment_factor_formula_witness :
    AirQuality.calculate_adjustment_factor 50000
      { latitude := 51, longitude := 0
        laei_no2 := some 50, laei_pm25 := none, laei_pm10 := none
        data_source := "ADJUSTED"
        direct_sensor := none, direct_sensor_distance := none
        reference_sensor := some
          ⟨"RS4", 51, 0, "LAQN", "roadside", true,
            [⟨43200, some 40, none, none⟩], [⟨2023, some 32, none, none⟩]⟩
        reference_sensor_distance := some 500 } =
      ⟨some (pyround ((40 : ℚ) / 32) 3), none, none⟩ ∧
    pyround ((40 : ℚ) / 32) 3 = 5/4 := by
  have h1 := adjustment_factor_formula.1 50000
    { latitude := 51, longitude := 0
      laei_no2 := some 50, laei_pm25 := none, laei_pm10 := none
      data_source := "ADJUSTED"
      direct_sensor := none, direct_sensor_distance := none
      reference_sensor := some
        ⟨"RS4", 51, 0, "LAQN", "roadside", true,
          [⟨43200, some 40, none, none⟩], [⟨2023, some 32, none, none⟩]⟩
      reference_sensor_distance := some 500 }
    ⟨"RS4", 51, 0, "LAQN", "roadside", true,
      [⟨43200, some 40, none, none⟩], [⟨2023, some 32, none, none⟩]⟩
    ⟨43200, some 40, none, none⟩ ⟨2023, some 32, none, none⟩
    rfl rfl (by decide) rfl
  have h2 := adjustment_factor_formula.2.1 40 32 (by norm_num) (by norm_num)
  constructor
  · rw [h1]
    simp only [h2]
    rfl
  · norm_num [pyround, rhe, Int.fract]

open AQ in
/-- C4 counterexample: in the schools variant's adjusted method, a school
whose NO2 baseline is present with value 0 while only a PM2.5 factor
exists ends with its NO2 output nulled (`float(baseline) if baseline else
None`), contradicting "the baseline is passed through unmodified, never
nulled out". -/
theorem zero_baseline_nulled_cex :
    ({ latitude := 51, longitude := 0
       no2_2022 := some 0, pm25_2022 := some 18, pm10_mean_2022 := none
       data_source := "ADJUSTED"
       direct_sensor := none, direct_sensor_distance := none
       reference_sensor := some
         ⟨"RS5", 51, 0, "LAQN", "roadside", true,
           [⟨43200, none, some 20, none⟩], [⟨2023, none, some 16, none⟩]⟩
       reference_sensor_distance := some 500 } : Schools.School).no2_2022 =
      some 0 ∧
    (Schools.get_current_reading_sch 50000
      { latitude := 51, longitude := 0
        no2_2022 := some 0, pm25_2022 := some 18, pm10_mean_2022 := none
        data_source := "ADJUSTED"
        direct_sensor := none, direct_sensor_distance := none
        reference_sensor := some
          ⟨"RS5", 51, 0, "LAQN", "roadside", true,
            [⟨43200, none, some 20, none⟩], [⟨2023, none, some 16, none⟩]⟩
        reference_sensor_distance := some 500 }).method = some "laei_adjusted" ∧
    (Schools.calculate_adjustment_factor_sch 50000
      { latitude := 51, longitude := 0
        no2_2022 := some 0, pm25_2022 := some 18, pm10_mean_2022 := none
        data_source := "ADJUSTED"
        direct_sensor := none, direct_sensor_distance := none
        reference_sensor := some
          ⟨"RS5", 51, 0, "LAQN", "roadside", true,
            [⟨43200, none, some 20, none⟩], [⟨2023, none, some 16, none⟩]⟩
        reference_sensor_distance := some 500 }).no2 = none ∧
    (Schools.get_current_reading_sch 50000
      { latitude := 51, longitude := 0
        no2_2022 := some 0, pm25_2022 := some 18, pm10_mean_2022 := none
        data_source := "ADJUSTED"
        direct_sensor := none, direct_sensor_distance := none
        reference_sensor := some
          ⟨"RS5", 51, 0, "LAQN", "roadside", true,
            [⟨43200, none, some 20, none⟩], [⟨2023, none, some 16, none⟩]⟩
        reference_sensor_distance := some 500 }).no2 = none ∧
    Schools.apply_adjustment_sch (some 0) none = none := by
  have hhour : hourOf 43200 = 12 := by decide
  refine ⟨rfl, ?_, ?_, ?_, by norm_num [Schools.apply_adjustment_sch]⟩ <;>
    norm_num [Schools.get_current_reading_sch, Schools.calculate_adjustment_factor_sch,
      Schools.has_laei_data_sch, Schools.apply_adjustment_sch, Schools.MAX_AGE_SCH,
      AirQuality.Factors.nonempty, AirQuality.factor_component, truthy,
      get_latest_reading, latest_annual_stats, is_reading_fresh, hhour]

open AQ in
/-- C4 amended: with both baseline and factor present, both variants
produce `round(baseline * clamp(factor, 0.2, 5.0), 1)`, and inside the
adjusted method each pollutant field is computed from that pollutant's own
factor (clamp boundary: factor 10 on baseline 30 yields 150, not 300);
with a present baseline and no factor the air_quality variant always
passes the baseline through, while the schools variant passes it through
only when it is nonzero and nulls a zero baseline. -/
theorem adjusted_estimate_clamp_and_passthrough :
    (∀ b f : ℚ, AirQuality.apply_adjustment (some b) (some f) =
      some (pyround (b * max (1/5) (min f 5)) 1)) ∧
    (∀ b f : ℚ, Schools.apply_adjustment_sch (some b) (some f) =
      some (pyround (b * max (1/5) (min f 5)) 1)) ∧
    (∀ b : ℚ, AirQuality.apply_adjustment (some b) none = some b) ∧
    (∀ b : ℚ, b ≠ 0 → Schools.apply_adjustment_sch (some b) none = some b) ∧
    AirQuality.apply_adjustment (some 30) (some 10) = some 150 ∧
    (∀ (now : ℤ) (s : AirQuality.School),
      s.direct_sensor = none → s.reference_sensor.isSome = true →
      AirQuality.has_laei_data s = true →
      (AirQuality.calculate_adjustment_factor now s).nonempty = true →
      (AirQuality.get_current_reading now s).method = some "laei_adjusted" ∧
      (AirQuality.get_current_reading now s).no2 =
        AirQuality.apply_adjustment s.laei_no2
          (AirQuality.calculate_adjustment_factor now s).no2 ∧
      (AirQuality.get_current_reading now s).pm25 =
        AirQuality.apply_adjustment s.laei_pm25
          (AirQuality.calculate_adjustment_factor now s).pm25 ∧
      (AirQuality.get_current_reading now s).pm10 =
        AirQuality.apply_adjustment s.laei_pm10
          (AirQuality.calculate_adjustment_factor now s).pm10) := by
  refine ⟨?_, ?_, ?_, ?_, ?_, ?_⟩
  · intro b f
    rfl
  · intro b f
    rfl
  · intro b
    rfl
  · intro b hb
    simp [Schools.apply_adjustment_sch, hb]
  · have : max (1/5 : ℚ) (min 10 5) = 5 := by norm_num
    simp [AirQuality.apply_adjustment, this]
    norm_num [pyround, rhe, Int.fract]
  · intro now s hds href hlaei hadj
    refine ⟨?_, ?_, ?_, ?_⟩ <;>
      simp [AirQuality.get_current_reading, hds, href, hlaei, hadj]

/-- C4 witness: a nonzero baseline with no factor passes through in the
schools variant, and the clamp boundary gives 30 × factor 10 → 150. -/
theorem adjusted_estimate_clamp_and_passthrough_witness :
    Schools.apply_adjustment_sch (some 7) none = some 7 ∧
    AirQuality.apply_adjustment (some 30) (some 10) = some 150 := by
  exact ⟨adjusted_estimate_clamp_and_passthrough.2.2.2.1 7 (by norm_num),
    adjusted_estimate_clamp_and_passthrough.2.2.2.2.1⟩

open AQ in
/-- C5: evaluation at the failing inputs.  A school at Greenwich
(latitude 51.4779, longitude exactly 0) is skipped by the Resolver's
coordinate guard as if it had no coordinates, and a school whose only
baseline concentration is 0.0 is treated as having no baseline data, so
its estimate gets method none instead of the baseline-only method — the
code treats the numeric value 0 as "no data" inside the core. -/
theorem zero_treated_as_missing_in_core :
    Resolver.school_skipped_no_coords (514779/10000) 0 = true ∧
    AirQuality.has_laei_data
      { latitude := 51, longitude := 0
        laei_no2 := some 0, laei_pm25 := none, laei_pm10 := none
        data_source := "LAEI"
        direct_sensor := none, direct_sensor_distance := none
        reference_sensor := none, reference_sensor_distance := none } = false ∧
    (AirQuality.get_current_reading 50000
      { latitude := 51, longitude := 0
        laei_no2 := some 0, laei_pm25 := none, laei_pm10 := none
        data_source := "LAEI"
        direct_sensor := none, direct_sensor_distance := none
        reference_sensor := none, reference_sensor_distance := none }).method =
      none := by
  refine ⟨?_, ?_, ?_⟩
  · norm_num [Resolver.school_skipped_no_coords]
  · norm_num [AirQuality.has_laei_data, truthy]
  · norm_num [AirQuality.get_current_reading, AirQuality.has_laei_data, truthy]

open AQ Resolver in
/-- C9 counterexample: invoked with neither threshold supplied, the
Resolver does not refuse to run — argparse substitutes the defaults
(150 m / 2000 m) and a normal assignment is produced for an
urban-background sensor at 100 m. -/
theorem resolver_runs_with_defaults_cex :
    resolve_school_cli none none
      [⟨⟨"UB9", 51, 0, "BREATHE", "urban_background", true, [], []⟩, 100⟩] =
      { data_source := "DIRECT"
        direct_sensor := some ⟨"UB9", 51, 0, "BREATHE", "urban_background", true, [], []⟩
        direct_distance := some 100
        reference_sensor := none
        reference_distance := none } := by
  have hd : find_direct 150
      [⟨⟨"UB9", 51, 0, "BREATHE", "urban_background", true, [], []⟩, 100⟩] =
      some (⟨"UB9", 51, 0, "BREATHE", "urban_background", true, [], []⟩, 100) := by
    norm_num [find_direct, pyround, rhe, Int.fract]
  have hr : find_reference 2000
      [⟨⟨"UB9", 51, 0, "BREATHE", "urban_background", true, [], []⟩, 100⟩] =
      none := by
    simp [find_reference, List.filter]
  simp [resolve_school_cli, resolve_school, hd, hr]

/-- C9 amended: when a threshold is not supplied the components run with
documented defaults instead of refusing: the Resolver substitutes 150 m /
2000 m (argparse defaults), and the freshness windows default to 7200 s
(air_quality variant) and 86400 s (schools variant) inside the Estimator
rather than being required from the caller. -/
theorem resolver_defaults_substituted :
    (∀ l, Resolver.resolve_school_cli none none l =
      Resolver.resolve_school 150 2000 l) ∧
    (∀ dv rv l, Resolver.resolve_school_cli (some dv) (some rv) l =
      Resolver.resolve_school dv rv l) ∧
    AirQuality.MAX_AGE = 7200 ∧ Schools.MAX_AGE_SCH = 86400 := by
  exact ⟨fun l => rfl, fun dv rv l => rfl, rfl, rfl⟩
